import Mathlib

/-!
Verification of the scoring-driven remediation planner
(`sacred_geometry_optimizer.py`).

The planner works with priority weights drawn from the geometric ladder
`{φ, φ², φ³}` where `φ = (1 + √5)/2`.  To keep every definition
computable (so that concrete runs can be evaluated by `decide`), weights
are embedded exactly as elements of `ℚ[√5]`: a pair `(a, b)` denoting
the real number `a + b·√5`.  The order on such numbers is defined by a
purely rational sign criterion and proved equivalent to the order they
inherit from `ℝ`.
-/

/-- Numbers of the form `a + b·√5` with `a b : ℚ`.  This is the exact
carrier for the priority weights `φ`, `φ²`, `φ³` used by the planner. -/
structure Qrt5 where
  a : ℚ
  b : ℚ
deriving DecidableEq

/-- Real number denoted by a `Qrt5` value. -/
noncomputable def Qrt5.toReal (x : Qrt5) : ℝ := (x.a : ℝ) + (x.b : ℝ) * Real.sqrt 5

/-- Rational sign criterion for `0 ≤ a + b·√5`. -/
def Qrt5.nonneg (x : Qrt5) : Prop :=
  (0 ≤ x.b ∧ 0 ≤ x.a) ∨
  (0 ≤ x.b ∧ x.a < 0 ∧ x.a ^ 2 ≤ 5 * x.b ^ 2) ∨
  (x.b < 0 ∧ 0 ≤ x.a ∧ 5 * x.b ^ 2 ≤ x.a ^ 2)

instance (x : Qrt5) : Decidable x.nonneg := by
  unfold Qrt5.nonneg; infer_instance

/-- Order on `Qrt5`, mirroring the `>=` comparisons the planner performs
on its floating-point weights. -/
def Qrt5.le (x y : Qrt5) : Prop := Qrt5.nonneg ⟨y.a - x.a, y.b - x.b⟩

instance : DecidableRel Qrt5.le := fun x y => by
  unfold Qrt5.le; infer_instance

/-- Strict order, mirroring the `<` comparisons of the planner. -/
def Qrt5.lt (x y : Qrt5) : Prop := ¬ Qrt5.le y x

instance : DecidableRel Qrt5.lt := fun x y => by
  unfold Qrt5.lt; infer_instance

theorem Qrt5.nonneg_iff (x : Qrt5) : x.nonneg ↔ 0 ≤ x.toReal := by
  obtain ⟨a, b⟩ := x
  have hs5 : Real.sqrt 5 ^ 2 = 5 := Real.sq_sqrt (by norm_num)
  have hs0 : (0 : ℝ) ≤ Real.sqrt 5 := Real.sqrt_nonneg 5
  have hs1 : (1 : ℝ) ≤ Real.sqrt 5 := by
    nlinarith [hs5, hs0]
  simp only [Qrt5.nonneg, Qrt5.toReal]
  constructor
  · rintro (⟨hb, ha⟩ | ⟨hb, ha, h⟩ | ⟨hb, ha, h⟩)
    · have ha' : (0 : ℝ) ≤ (a : ℚ) := by exact_mod_cast ha
      have hb' : (0 : ℝ) ≤ (b : ℚ) := by exact_mod_cast hb
      nlinarith [mul_nonneg hb' hs0]
    · have hb' : (0 : ℝ) ≤ (b : ℚ) := by exact_mod_cast hb
      have ha' : ((a : ℚ) : ℝ) < 0 := by exact_mod_cast ha
      have h' : ((a : ℚ) : ℝ) ^ 2 ≤ 5 * ((b : ℚ) : ℝ) ^ 2 := by exact_mod_cast h
      nlinarith [mul_nonneg hb' hs0, sq_nonneg ((b : ℚ) * Real.sqrt 5 + (a : ℚ)),
        sq_nonneg ((b : ℚ) * Real.sqrt 5 - (a : ℚ))]
    · have hb' : ((b : ℚ) : ℝ) < 0 := by exact_mod_cast hb
      have ha' : (0 : ℝ) ≤ (a : ℚ) := by exact_mod_cast ha
      have h' : 5 * ((b : ℚ) : ℝ) ^ 2 ≤ ((a : ℚ) : ℝ) ^ 2 := by exact_mod_cast h
      nlinarith [mul_nonneg (neg_nonneg.mpr hb'.le) hs0,
        sq_nonneg ((b : ℚ) * Real.sqrt 5 + (a : ℚ)),
        sq_nonneg ((b : ℚ) * Real.sqrt 5 - (a : ℚ))]
  · intro h
    rcases le_or_lt 0 b with hb | hb
    · rcases le_or_lt 0 a with ha | ha
      · exact Or.inl ⟨hb, ha⟩
      · refine Or.inr (Or.inl ⟨hb, ha, ?_⟩)
        have hb' : (0 : ℝ) ≤ (b : ℚ) := by exact_mod_cast hb
        have ha' : ((a : ℚ) : ℝ) < 0 := by exact_mod_cast ha
        have : ((a : ℚ) : ℝ) ^ 2 ≤ 5 * ((b : ℚ) : ℝ) ^ 2 := by
          nlinarith [mul_nonneg hb' hs0]
        exact_mod_cast this
    · rcases le_or_lt 0 a with ha | ha
      · refine Or.inr (Or.inr ⟨hb, ha, ?_⟩)
        have hb' : ((b : ℚ) : ℝ) < 0 := by exact_mod_cast hb
        have ha' : (0 : ℝ) ≤ (a : ℚ) := by exact_mod_cast ha
        have : 5 * ((b : ℚ) : ℝ) ^ 2 ≤ ((a : ℚ) : ℝ) ^ 2 := by
          nlinarith [mul_nonneg (neg_nonneg.mpr hb'.le) hs0]
        exact_mod_cast this
      · exfalso
        have hb' : ((b : ℚ) : ℝ) < 0 := by exact_mod_cast hb
        have ha' : ((a : ℚ) : ℝ) < 0 := by exact_mod_cast ha
        nlinarith [mul_nonneg (neg_nonneg.mpr hb'.le) hs0]

theorem Qrt5.le_iff (x y : Qrt5) : x.le y ↔ x.toReal ≤ y.toReal := by
  unfold Qrt5.le
  rw [Qrt5.nonneg_iff]
  unfold Qrt5.toReal
  push_cast
  constructor <;> intro h <;> nlinarith [h]

theorem Qrt5.lt_iff (x y : Qrt5) : x.lt y ↔ x.toReal < y.toReal := by
  unfold Qrt5.lt
  rw [Qrt5.le_iff]
  exact not_le

theorem Qrt5.leRefl (x : Qrt5) : x.le x := by
  rw [Qrt5.le_iff]

theorem Qrt5.leTrans {x y z : Qrt5} (h₁ : x.le y) (h₂ : y.le z) : x.le z := by
  rw [Qrt5.le_iff] at *
  exact h₁.trans h₂

theorem Qrt5.leTotal (x y : Qrt5) : x.le y ∨ y.le x := by
  rw [Qrt5.le_iff, Qrt5.le_iff]
  exact le_total x.toReal y.toReal

/-!
Planner constants.  The source defines
`PHI = (1 + math.sqrt(5)) / 2`, `PHI_SQUARED = PHI ** 2`,
`PHI_CUBED = PHI ** 3`.  In `ℚ[√5]` these are `(1/2, 1/2)`, `(3/2, 1/2)`
and `(2, 1)`; the lemmas below check the identification against `ℝ`.
-/

/-- Exact value of `PHI = (1 + math.sqrt(5)) / 2`. -/
def PHI : Qrt5 := ⟨1/2, 1/2⟩

/-- Exact value of `PHI_SQUARED = PHI ** 2`. -/
def PHI_SQUARED : Qrt5 := ⟨3/2, 1/2⟩

/-- Exact value of `PHI_CUBED = PHI ** 3`. -/
def PHI_CUBED : Qrt5 := ⟨2, 1⟩

/-- Real golden ratio, as the source computes it. -/
noncomputable def phiReal : ℝ := (1 + Real.sqrt 5) / 2

theorem PHI_toReal : PHI.toReal = phiReal := by
  unfold PHI Qrt5.toReal phiReal
  push_cast
  ring

theorem PHI_SQUARED_toReal : PHI_SQUARED.toReal = phiReal ^ 2 := by
  have hs5 : Real.sqrt 5 ^ 2 = 5 := Real.sq_sqrt (by norm_num)
  unfold PHI_SQUARED Qrt5.toReal phiReal
  push_cast
  nlinarith [hs5]

theorem PHI_CUBED_toReal : PHI_CUBED.toReal = phiReal ^ 3 := by
  have hs5 : Real.sqrt 5 ^ 2 = 5 := Real.sq_sqrt (by norm_num)
  unfold PHI_CUBED Qrt5.toReal phiReal
  push_cast
  nlinarith [hs5, Real.sqrt_nonneg 5]

/-!
Data model.  The analyzer builds a score for each of the five fixed
patterns by reading `average_scores.get(key, 0)`; a key can be absent
from the input document, which is modelled with `Option ℚ` fields.
-/

/-- Fixed, closed set of categories (patterns), in the declaration order
used by `_analyze_current_state`. -/
inductive Pattern
  | Circle
  | Triangle
  | Spiral
  | GoldenRatio
  | Fractal
deriving DecidableEq

/-- Input scores document: the `overall_analysis.average_scores` mapping,
restricted to the five keys the optimizer reads.  `none` models an
absent key. -/
structure MetricsReport where
  circle_completeness : Option ℚ
  triangle_stability : Option ℚ
  spiral_growth : Option ℚ
  golden_ratio_optimization : Option ℚ
  fractal_consistency : Option ℚ
deriving DecidableEq

/-- Score of a pattern, mirroring `avg_scores.get(key, 0)`. -/
def patternScore (r : MetricsReport) : Pattern → ℚ
  | .Circle => r.circle_completeness.getD 0
  | .Triangle => r.triangle_stability.getD 0
  | .Spiral => r.spiral_growth.getD 0
  | .GoldenRatio => r.golden_ratio_optimization.getD 0
  | .Fractal => r.fractal_consistency.getD 0

/-- Display name of a pattern, the dictionary key of `pattern_scores`. -/
def patternName : Pattern → String
  | .Circle => "Circle"
  | .Triangle => "Triangle"
  | .Spiral => "Spiral"
  | .GoldenRatio => "Golden Ratio"
  | .Fractal => "Fractal"

/-- Position of a pattern in the declaration order of `pattern_scores`. -/
def patternIdx : Pattern → Nat
  | .Circle => 0
  | .Triangle => 1
  | .Spiral => 2
  | .GoldenRatio => 3
  | .Fractal => 4

/-- Declaration order of the `pattern_scores` dictionary. -/
def patternOrder : List Pattern :=
  [.Circle, .Triangle, .Spiral, .GoldenRatio, .Fractal]

/-- Python `min(keys, key=f)`: walk the keys, replacing the current best
only on a strictly smaller value, so the first minimum wins. -/
def argminFirst (f : Pattern → ℚ) : Pattern → List Pattern → Pattern
  | best, [] => best
  | best, p :: ps => argminFirst f (if f p < f best then p else best) ps

/-- Python `max(keys, key=f)`: first maximum wins. -/
def argmaxFirst (f : Pattern → ℚ) : Pattern → List Pattern → Pattern
  | best, [] => best
  | best, p :: ps => argmaxFirst f (if f best < f p then p else best) ps

/-- Weakest pattern computed by `_analyze_current_state`. -/
def weakest_pattern (r : MetricsReport) : Pattern :=
  argminFirst (patternScore r) .Circle [.Triangle, .Spiral, .GoldenRatio, .Fractal]

/-- Strongest pattern computed by `_analyze_current_state`. -/
def strongest_pattern (r : MetricsReport) : Pattern :=
  argmaxFirst (patternScore r) .Circle [.Triangle, .Spiral, .GoldenRatio, .Fractal]

/-!
Task records and the Task Generator.  Each `_generate_*_tasks` method
appends records to `self.optimization_tasks`; the generator below
returns the concatenation in the same call order.
Float thresholds `0.5`, `0.7`, `0.8` become the rationals `1/2`,
`7/10`, `8/10`.
-/

/-- Task record, mirroring the `OptimizationTask` dataclass. -/
structure OptimizationTask where
  id : String
  title : String
  priority : Qrt5
  pattern : String
  system : String
  description : String
  implementation_steps : List String
  success_criteria : List String
  estimated_effort : String
  expected_impact : ℚ
deriving DecidableEq

/-- Task `CIRCLE_001`, generated when the Circle score is below `0.7`. -/
def CIRCLE_001 : OptimizationTask where
  id := "CIRCLE_001"
  title := "Enhance System Completeness Through Sacred Geometry Testing"
  priority := PHI_CUBED
  pattern := "Circle"
  system := "All Systems"
  description := "Implement comprehensive testing strategy using Sacred Geometry principles to achieve system completeness"
  implementation_steps := [
    "🔍 Audit current test coverage across all systems",
    "📐 Apply Golden Ratio (φ = PHI) to test-to-code ratios",
    "🔺 Implement three-tier testing: Unit, Integration, End-to-End",
    "🌀 Create progressive test enhancement spiral",
    "♾️ Establish fractal testing patterns across scales",
    "🔵 Validate complete test coverage creates unified system"]
  success_criteria := [
    "Test coverage increases to > 80% (φ * 50%)",
    "All systems achieve Circle completeness score > 0.8",
    "Testing follows Sacred Geometry patterns",
    "Automated test execution in CI/CD pipeline"]
  estimated_effort := "Large"
  expected_impact := 85/100

/-- Task `CIRCLE_002`, generated when the Circle score is below `0.8`. -/
def CIRCLE_002 : OptimizationTask where
  id := "CIRCLE_002"
  title := "Sacred Geometry Documentation System"
  priority := PHI_SQUARED
  pattern := "Circle"
  system := "All Systems"
  description := "Create complete documentation following Sacred Geometry organizational principles"
  implementation_steps := [
    "📖 Create Sacred Geometry documentation template",
    "🔺 Organize docs in three-tier hierarchy: Overview, Details, Examples",
    "📐 Apply Golden Ratio to content proportions",
    "🔵 Ensure documentation completeness for each system",
    "🌀 Implement progressive documentation enhancement"]
  success_criteria := [
    "All systems have complete documentation",
    "Documentation follows Sacred Geometry principles",
    "User experience is unified and complete"]
  estimated_effort := "Medium"
  expected_impact := 7/10

/-- Task `TRIANGLE_001`; its priority depends on whether Triangle is the
weakest pattern. -/
def TRIANGLE_001 (weakest : Pattern) : OptimizationTask where
  id := "TRIANGLE_001"
  title := "Three-Point Architecture Stabilization"
  priority := if weakest = .Triangle then PHI_CUBED else PHI_SQUARED
  pattern := "Triangle"
  system := "All Systems"
  description := "Implement three-point stability architecture across all systems"
  implementation_steps := [
    "🔺 Identify current system dependencies and complexity",
    "⚖️ Implement three-tier architecture: Data, Logic, Presentation",
    "🏗️ Reduce complexity through modular design",
    "🔗 Minimize dependency depth using Sacred Geometry principles",
    "⚡ Optimize performance through triangular load distribution",
    "🛡️ Implement three-point failure resistance"]
  success_criteria := [
    "All systems achieve Triangle stability score > 0.8",
    "Dependency depth reduced to < 5 levels",
    "System complexity scores improved by 25%",
    "Three-point architecture implemented"]
  estimated_effort := "Large"
  expected_impact := 9/10

/-- Task `SPIRAL_001`, generated when the Spiral score is below `0.7`;
its priority is `PHI_SQUARED` regardless of the weakest pattern. -/
def SPIRAL_001 : OptimizationTask where
  id := "SPIRAL_001"
  title := "Progressive Enhancement Spiral Implementation"
  priority := PHI_SQUARED
  pattern := "Spiral"
  system := "All Systems"
  description := "Implement spiral growth patterns for scalable system evolution"
  implementation_steps := [
    "🌀 Analyze current growth patterns and scalability",
    "📈 Design progressive enhancement methodology",
    "🔄 Implement iterative development cycles",
    "📊 Apply logarithmic growth principles",
    "🎯 Create scalability metrics and monitoring",
    "🚀 Establish continuous improvement spiral"]
  success_criteria := [
    "Spiral growth score > 0.8 for all systems",
    "Scalability patterns documented and implemented",
    "Growth follows mathematical progression",
    "Systems demonstrate evolutionary enhancement"]
  estimated_effort := "Medium"
  expected_impact := 75/100

/-- Task `GOLDEN_RATIO_001`, generated when the Golden Ratio score is
below `0.5`. -/
def GOLDEN_RATIO_001 : OptimizationTask where
  id := "GOLDEN_RATIO_001"
  title := "φ = PHI System Proportion Optimization"
  priority := PHI_CUBED
  pattern := "Golden Ratio"
  system := "All Systems"
  description := "Apply Golden Ratio mathematical optimization across all system proportions"
  implementation_steps := [
    "📐 Audit current system proportions and ratios",
    "🧮 Calculate φ-optimal ratios for: code/tests, files/modules, complexity/maintainability",
    "⚖️ Implement Golden Ratio in API design (response times, payload sizes)",
    "🎨 Apply φ to user interface proportions and layouts",
    "⏱️ Optimize performance timing using Golden Ratio intervals",
    "📊 Create Golden Ratio monitoring and metrics",
    "🔍 Validate improvements through mathematical analysis"]
  success_criteria := [
    "System ratios align with φ = PHI (within 20% tolerance)",
    "Golden Ratio optimization score > 0.8",
    "Performance improvements measurable",
    "Mathematical harmony demonstrated across systems"]
  estimated_effort := "Large"
  expected_impact := 95/100

/-- Task `GOLDEN_RATIO_002`, generated unconditionally on every run. -/
def GOLDEN_RATIO_002 : OptimizationTask where
  id := "GOLDEN_RATIO_002"
  title := "Sacred Geometry Performance Optimization"
  priority := PHI
  pattern := "Golden Ratio"
  system := "Core Systems"
  description := "Apply φ principles to optimize system performance characteristics"
  implementation_steps := [
    "⚡ Analyze current performance bottlenecks",
    "📐 Apply Golden Ratio to: cache sizes, timeout values, retry intervals",
    "🔄 Implement φ-based load balancing algorithms",
    "📊 Create performance metrics aligned with Sacred Geometry",
    "🎯 Optimize resource allocation using mathematical principles"]
  success_criteria := [
    "Performance improvements > 20%",
    "Resource utilization follows φ proportions",
    "System responsiveness optimized"]
  estimated_effort := "Medium"
  expected_impact := 8/10

/-- Task `FRACTAL_001`, generated when the Fractal score is below `0.7`. -/
def FRACTAL_001 : OptimizationTask where
  id := "FRACTAL_001"
  title := "Self-Similar Pattern Consistency Implementation"
  priority := PHI
  pattern := "Fractal"
  system := "All Systems"
  description := "Implement fractal self-similarity patterns across all system scales"
  implementation_steps := [
    "♾️ Identify current pattern inconsistencies across scales",
    "🔍 Design self-similar architectural patterns",
    "📋 Create consistent coding standards and conventions",
    "🏗️ Implement recursive design patterns",
    "📐 Apply scale-invariant Sacred Geometry principles",
    "🔄 Establish pattern propagation mechanisms"]
  success_criteria := [
    "Fractal consistency score > 0.8",
    "Patterns consistent across all system scales",
    "Self-similarity mathematically verifiable",
    "Recursive structures implemented"]
  estimated_effort := "Medium"
  expected_impact := 7/10

/-- Tasks appended by `_generate_circle_tasks`. -/
def generate_circle_tasks (r : MetricsReport) : List OptimizationTask :=
  (if patternScore r .Circle < 7/10 then [CIRCLE_001] else []) ++
  (if patternScore r .Circle < 8/10 then [CIRCLE_002] else [])

/-- Tasks appended by `_generate_triangle_tasks`. -/
def generate_triangle_tasks (r : MetricsReport) : List OptimizationTask :=
  if patternScore r .Triangle < 7/10 then [TRIANGLE_001 (weakest_pattern r)] else []

/-- Tasks appended by `_generate_spiral_tasks`. -/
def generate_spiral_tasks (r : MetricsReport) : List OptimizationTask :=
  if patternScore r .Spiral < 7/10 then [SPIRAL_001] else []

/-- Tasks appended by `_generate_golden_ratio_tasks`; note that
`GOLDEN_RATIO_002` is appended unconditionally. -/
def generate_golden_ratio_tasks (r : MetricsReport) : List OptimizationTask :=
  (if patternScore r .GoldenRatio < 1/2 then [GOLDEN_RATIO_001] else []) ++
  [GOLDEN_RATIO_002]

/-- Tasks appended by `_generate_fractal_tasks`. -/
def generate_fractal_tasks (r : MetricsReport) : List OptimizationTask :=
  if patternScore r .Fractal < 7/10 then [FRACTAL_001] else []

/-- Full task list in generation order, as produced by
`generate_optimization_plan` before prioritization. -/
def generateTasks (r : MetricsReport) : List OptimizationTask :=
  generate_circle_tasks r ++ generate_triangle_tasks r ++
  generate_spiral_tasks r ++ generate_golden_ratio_tasks r ++
  generate_fractal_tasks r

/-!
Prioritization and roadmap construction.  `_prioritize_tasks` performs
`self.optimization_tasks.sort(key=lambda t: t.priority, reverse=True)`,
a stable descending sort; it is modelled by `List.insertionSort` with
the reflexive "greater or equal priority" relation, which is stable in
the same sense and therefore produces the identical list.
-/

/-- Comparison used by the descending stable sort: the first task sorts
no later than the second. -/
def taskGE (t₁ t₂ : OptimizationTask) : Prop := Qrt5.le t₂.priority t₁.priority

instance : DecidableRel taskGE := fun t₁ t₂ => by
  unfold taskGE; infer_instance

instance : IsTotal OptimizationTask taskGE :=
  ⟨fun a b => Qrt5.leTotal b.priority a.priority⟩

instance : IsTrans OptimizationTask taskGE :=
  ⟨fun _ _ _ h₁ h₂ => Qrt5.leTrans h₂ h₁⟩

/-- Task list after `_prioritize_tasks`: stably sorted by priority,
descending. -/
def sortedTasks (r : MetricsReport) : List OptimizationTask :=
  List.insertionSort taskGE (generateTasks r)

/-- Priority classifier `_get_priority_name`. -/
def get_priority_name (priority : Qrt5) : String :=
  if Qrt5.le PHI_CUBED priority then "φ³ CRITICAL"
  else if Qrt5.le PHI_SQUARED priority then "φ² HIGH"
  else if Qrt5.le PHI priority then "φ¹ MEDIUM"
  else "φ⁰ LOW"

/-- Serialized task record produced by `_task_to_dict`. -/
structure TaskDict where
  id : String
  title : String
  priority : Qrt5
  priority_name : String
  pattern : String
  system : String
  description : String
  implementation_steps : List String
  success_criteria : List String
  estimated_effort : String
  expected_impact : ℚ
deriving DecidableEq

/-- Serialization `_task_to_dict`: all task fields plus the derived
priority tier name. -/
def task_to_dict (t : OptimizationTask) : TaskDict where
  id := t.id
  title := t.title
  priority := t.priority
  priority_name := get_priority_name t.priority
  pattern := t.pattern
  system := t.system
  description := t.description
  implementation_steps := t.implementation_steps
  success_criteria := t.success_criteria
  estimated_effort := t.estimated_effort
  expected_impact := t.expected_impact

/-- Phase 1 filter: `t.priority >= PHI_SQUARED`. -/
def immediate_tasks (r : MetricsReport) : List OptimizationTask :=
  (sortedTasks r).filter fun t => decide (Qrt5.le PHI_SQUARED t.priority)

/-- Phase 2 filter: `PHI <= t.priority < PHI_SQUARED`. -/
def progressive_tasks (r : MetricsReport) : List OptimizationTask :=
  (sortedTasks r).filter fun t =>
    decide (Qrt5.le PHI t.priority ∧ Qrt5.lt t.priority PHI_SQUARED)

/-- Phase 3 filter: `t.priority < PHI`. -/
def future_tasks (r : MetricsReport) : List OptimizationTask :=
  (sortedTasks r).filter fun t => decide (Qrt5.lt t.priority PHI)

/-- Phase aggregate, mirroring
`sum(t.expected_impact for t in ts) / len(ts) if ts else 0`. -/
def phase_expected_impact (ts : List OptimizationTask) : ℚ :=
  if ts = [] then 0
  else (ts.map fun t => t.expected_impact).sum / (ts.length : ℚ)

/-- One roadmap phase entry. -/
structure Phase where
  name : String
  description : String
  tasks : List TaskDict
  expected_impact : ℚ
deriving DecidableEq

/-- Next actions `_generate_next_actions`, reading the head of the
(sorted in place) task list. -/
def generate_next_actions (tasks : List OptimizationTask) (weakest : Pattern) : List String :=
  match tasks with
  | [] => ["Run Sacred Geometry analysis to identify optimization opportunities"]
  | top :: _ =>
    ["🎯 START: " ++ top.title,
     "📐 Focus on " ++ patternName weakest ++ " pattern improvement",
     "🔄 Run Sacred Geometry analysis weekly to track progress",
     "📊 Measure improvements using φ-based metrics",
     "🌟 Celebrate Sacred Geometry alignment milestones"]

/-- Roadmap document assembled by `_create_implementation_roadmap`,
with the `success_metrics` sub-document flattened into scalar fields. -/
structure Roadmap where
  analysis_timestamp : ℚ
  current_sacred_geometry_score : List (String × ℚ)
  optimization_strategy : String
  phase_1_immediate : Phase
  phase_2_progressive : Phase
  phase_3_optimization : Phase
  target_sacred_geometry_score : ℚ
  expected_timeline : String
  key_patterns_to_improve : List String
  measurement_intervals : String
  next_actions : List String
deriving DecidableEq

/-- Roadmap builder `_create_implementation_roadmap`; `now` is the
wall-clock value `time.time()` reads, passed explicitly. -/
def create_implementation_roadmap (now : ℚ) (r : MetricsReport) : Roadmap where
  analysis_timestamp := now
  current_sacred_geometry_score :=
    patternOrder.map fun p => (patternName p, patternScore r p)
  optimization_strategy := "φ-Priority Sacred Geometry Enhancement"
  phase_1_immediate :=
    { name := "φ³ Critical Foundation (Weeks 1-2)"
      description := "Address highest priority Sacred Geometry improvements"
      tasks := (immediate_tasks r).map task_to_dict
      expected_impact := phase_expected_impact (immediate_tasks r) }
  phase_2_progressive :=
    { name := "φ² Progressive Enhancement (Weeks 3-6)"
      description := "Implement scalable Sacred Geometry patterns"
      tasks := (progressive_tasks r).map task_to_dict
      expected_impact := phase_expected_impact (progressive_tasks r) }
  phase_3_optimization :=
    { name := "φ¹ Continuous Optimization (Ongoing)"
      description := "Maintain and enhance Sacred Geometry alignment"
      tasks := (future_tasks r).map task_to_dict
      expected_impact := phase_expected_impact (future_tasks r) }
  target_sacred_geometry_score := 85/100
  expected_timeline := "6-8 weeks"
  key_patterns_to_improve := [patternName (weakest_pattern r)]
  measurement_intervals := "Weekly Sacred Geometry analysis"
  next_actions := generate_next_actions (sortedTasks r) (weakest_pattern r)

/-- Output filename built by `save_optimization_plan` when no explicit
filename is supplied. -/
def save_plan_filename (timestamp : Nat) : String :=
  "sacred_geometry_optimization_plan_" ++ toString timestamp ++ ".json"

/-!
Comparison facts on the weight ladder `φ < φ² < φ³`, proved from the
rational sign criterion.  They drive the evaluation of every branch the
planner takes.
-/

theorem qle_phi_phi : Qrt5.le PHI PHI := Qrt5.leRefl PHI

theorem qle_phi2_phi2 : Qrt5.le PHI_SQUARED PHI_SQUARED := Qrt5.leRefl PHI_SQUARED

theorem qle_phi3_phi3 : Qrt5.le PHI_CUBED PHI_CUBED := Qrt5.leRefl PHI_CUBED

theorem qle_phi_phi2 : Qrt5.le PHI PHI_SQUARED := by
  norm_num [Qrt5.le, Qrt5.nonneg, PHI, PHI_SQUARED]

theorem qle_phi_phi3 : Qrt5.le PHI PHI_CUBED := by
  norm_num [Qrt5.le, Qrt5.nonneg, PHI, PHI_CUBED]

theorem qle_phi2_phi3 : Qrt5.le PHI_SQUARED PHI_CUBED := by
  norm_num [Qrt5.le, Qrt5.nonneg, PHI_SQUARED, PHI_CUBED]

theorem not_qle_phi2_phi : ¬ Qrt5.le PHI_SQUARED PHI := by
  norm_num [Qrt5.le, Qrt5.nonneg, PHI, PHI_SQUARED]

theorem not_qle_phi3_phi : ¬ Qrt5.le PHI_CUBED PHI := by
  norm_num [Qrt5.le, Qrt5.nonneg, PHI, PHI_CUBED]

theorem not_qle_phi3_phi2 : ¬ Qrt5.le PHI_CUBED PHI_SQUARED := by
  norm_num [Qrt5.le, Qrt5.nonneg, PHI_SQUARED, PHI_CUBED]

/-!
Priority projections of the generated tasks, used to evaluate branch
conditions without unfolding the task records.
-/

theorem prio_circle1 : CIRCLE_001.priority = PHI_CUBED := rfl

theorem prio_circle2 : CIRCLE_002.priority = PHI_SQUARED := rfl

theorem prio_triangle1 (w : Pattern) :
    (TRIANGLE_001 w).priority = if w = .Triangle then PHI_CUBED else PHI_SQUARED := rfl

theorem prio_spiral1 : SPIRAL_001.priority = PHI_SQUARED := rfl

theorem prio_golden1 : GOLDEN_RATIO_001.priority = PHI_CUBED := rfl

theorem prio_golden2 : GOLDEN_RATIO_002.priority = PHI := rfl

theorem prio_fractal1 : FRACTAL_001.priority = PHI := rfl

/-!
Stability of the descending sort: for every fixed weight `w`, sorting
does not change the subsequence of tasks whose priority is exactly `w`.
-/

theorem filter_priority_orderedInsert (w : Qrt5) (a : OptimizationTask)
    (l : List OptimizationTask) :
    (List.orderedInsert taskGE a l).filter (fun t => decide (t.priority = w)) =
      (if a.priority = w then [a] else []) ++
        l.filter (fun t => decide (t.priority = w)) := by
  induction l with
  | nil =>
    by_cases haw : a.priority = w <;>
      simp [List.orderedInsert, List.filter_cons, haw]
  | cons b bs ih =>
    by_cases hab : taskGE a b
    · by_cases haw : a.priority = w <;>
        simp [List.orderedInsert, hab, List.filter_cons, haw]
    · have hba : b.priority = w → a.priority ≠ w := by
        intro hb ha
        exact hab (show Qrt5.le b.priority a.priority by
          rw [hb, ha]; exact Qrt5.leRefl w)
      by_cases hbw : b.priority = w
      · have haw : a.priority ≠ w := hba hbw
        simp [List.orderedInsert, hab, List.filter_cons, hbw, haw, ih]
      · by_cases haw : a.priority = w <;>
          simp [List.orderedInsert, hab, List.filter_cons, hbw, haw, ih]

theorem filter_priority_insertionSort (w : Qrt5) (l : List OptimizationTask) :
    (List.insertionSort taskGE l).filter (fun t => decide (t.priority = w)) =
      l.filter (fun t => decide (t.priority = w)) := by
  induction l with
  | nil => rfl
  | cons a l ih =>
    show (List.orderedInsert taskGE a (List.insertionSort taskGE l)).filter _ = _
    rw [filter_priority_orderedInsert, ih]
    by_cases haw : a.priority = w <;> simp [List.filter_cons, haw]

/-!
Contiguity: on a descending-sorted list the three phase filters cut
out a prefix, a middle segment and a suffix, so their concatenation
rebuilds the list itself.
-/

theorem three_phase_split (l : List OptimizationTask) (hl : List.Sorted taskGE l) :
    (l.filter fun t => decide (Qrt5.le PHI_SQUARED t.priority)) ++
      (l.filter fun t => decide (Qrt5.le PHI t.priority ∧ Qrt5.lt t.priority PHI_SQUARED)) ++
      (l.filter fun t => decide (Qrt5.lt t.priority PHI)) = l := by
  induction l with
  | nil => rfl
  | cons h t ih =>
    have hrel : ∀ b ∈ t, Qrt5.le b.priority h.priority :=
      fun b hb => List.rel_of_sorted_cons hl b hb
    have ht := ih hl.of_cons
    by_cases h2 : Qrt5.le PHI_SQUARED h.priority
    · have hn2 : ¬ (Qrt5.le PHI h.priority ∧ Qrt5.lt h.priority PHI_SQUARED) :=
        fun hc => hc.2 h2
      have hn3 : ¬ Qrt5.lt h.priority PHI :=
        fun hlt => hlt (Qrt5.leTrans qle_phi_phi2 h2)
      have e1 : ((h :: t).filter fun b => decide (Qrt5.le PHI_SQUARED b.priority)) =
          h :: (t.filter fun b => decide (Qrt5.le PHI_SQUARED b.priority)) := by
        simp [List.filter_cons, h2]
      have e2 : ((h :: t).filter fun b =>
          decide (Qrt5.le PHI b.priority ∧ Qrt5.lt b.priority PHI_SQUARED)) =
          t.filter fun b =>
            decide (Qrt5.le PHI b.priority ∧ Qrt5.lt b.priority PHI_SQUARED) := by
        simp [List.filter_cons, hn2]
      have e3 : ((h :: t).filter fun b => decide (Qrt5.lt b.priority PHI)) =
          t.filter fun b => decide (Qrt5.lt b.priority PHI) := by
        simp [List.filter_cons, hn3]
      rw [e1, e2, e3, List.cons_append, List.cons_append, ht]
    · have hf1 : (t.filter fun b => decide (Qrt5.le PHI_SQUARED b.priority)) = [] := by
        rw [List.filter_eq_nil_iff]
        intro b hb
        simp only [decide_eq_true_eq]
        exact fun hle => h2 (Qrt5.leTrans hle (hrel b hb))
      have e1 : ((h :: t).filter fun b => decide (Qrt5.le PHI_SQUARED b.priority)) =
          t.filter fun b => decide (Qrt5.le PHI_SQUARED b.priority) := by
        simp [List.filter_cons, h2]
      by_cases h1 : Qrt5.le PHI h.priority
      · have hp2 : Qrt5.le PHI h.priority ∧ Qrt5.lt h.priority PHI_SQUARED := ⟨h1, h2⟩
        have hn3 : ¬ Qrt5.lt h.priority PHI := fun hlt => hlt h1
        have e2 : ((h :: t).filter fun b =>
            decide (Qrt5.le PHI b.priority ∧ Qrt5.lt b.priority PHI_SQUARED)) =
            h :: (t.filter fun b =>
              decide (Qrt5.le PHI b.priority ∧ Qrt5.lt b.priority PHI_SQUARED)) := by
          simp [List.filter_cons, hp2]
        have e3 : ((h :: t).filter fun b => decide (Qrt5.lt b.priority PHI)) =
            t.filter fun b => decide (Qrt5.lt b.priority PHI) := by
          simp [List.filter_cons, hn3]
        have ht' := ht
        rw [hf1, List.nil_append] at ht'
        rw [e1, e2, e3, hf1, List.nil_append, List.cons_append, ht']
      · have hf2 : (t.filter fun b =>
            decide (Qrt5.le PHI b.priority ∧ Qrt5.lt b.priority PHI_SQUARED)) = [] := by
          rw [List.filter_eq_nil_iff]
          intro b hb
          simp only [decide_eq_true_eq]
          exact fun hc => h1 (Qrt5.leTrans hc.1 (hrel b hb))
        have hn2 : ¬ (Qrt5.le PHI h.priority ∧ Qrt5.lt h.priority PHI_SQUARED) :=
          fun hc => h1 hc.1
        have h3 : Qrt5.lt h.priority PHI := h1
        have e2 : ((h :: t).filter fun b =>
            decide (Qrt5.le PHI b.priority ∧ Qrt5.lt b.priority PHI_SQUARED)) =
            t.filter fun b =>
              decide (Qrt5.le PHI b.priority ∧ Qrt5.lt b.priority PHI_SQUARED) := by
          simp [List.filter_cons, hn2]
        have e3 : ((h :: t).filter fun b => decide (Qrt5.lt b.priority PHI)) =
            h :: (t.filter fun b => decide (Qrt5.lt b.priority PHI)) := by
          simp [List.filter_cons, h3]
        have ht' := ht
        rw [hf1, hf2, List.nil_append, List.nil_append] at ht'
        rw [e1, e2, e3, hf1, hf2, List.nil_append, List.nil_append, ht']

/-!
Concrete reports used to exercise the pipeline.
-/

/-- Report in which every category scores `0.9`. -/
def reportAll09 : MetricsReport :=
  ⟨some (9/10), some (9/10), some (9/10), some (9/10), some (9/10)⟩

/-- Report in which Spiral is the unique weakest category and scores
below `0.7`. -/
def reportSpiralWeak : MetricsReport :=
  ⟨some (3/4), some (3/4), some (3/10), some (3/4), some (3/4)⟩

/-- Report whose scores document holds no keys at all. -/
def reportNoKeys : MetricsReport := ⟨none, none, none, none, none⟩

/-- Report in which Triangle is the unique weakest category. -/
def reportTriangleWeak : MetricsReport :=
  ⟨some 1, some 0, some 1, some 1, some 1⟩

/-- Report in which only the Spiral key is missing. -/
def reportSpiralMissing : MetricsReport :=
  ⟨some 1, some 1, none, some 1, some 1⟩

/-!
Characterization of the analyzer: the result of `min`/`max` with a key
function is the first entry attaining the optimum.
-/

theorem weakest_spec (r : MetricsReport) :
    (∀ p, patternScore r (weakest_pattern r) ≤ patternScore r p) ∧
    (∀ p, patternIdx p < patternIdx (weakest_pattern r) →
      patternScore r (weakest_pattern r) < patternScore r p) := by
  unfold weakest_pattern
  simp only [argminFirst]
  split_ifs <;>
    (constructor <;> intro p <;> cases p <;>
      simp_all [patternIdx, patternScore] <;> linarith)

theorem strongest_spec (r : MetricsReport) :
    (∀ p, patternScore r p ≤ patternScore r (strongest_pattern r)) ∧
    (∀ p, patternIdx p < patternIdx (strongest_pattern r) →
      patternScore r p < patternScore r (strongest_pattern r)) := by
  unfold strongest_pattern
  simp only [argmaxFirst]
  split_ifs <;>
    (constructor <;> intro p <;> cases p <;>
      simp_all [patternIdx, patternScore] <;> linarith)

/-!
Identifier projections and the identifiers each generator can emit.
-/

theorem id_circle1 : CIRCLE_001.id = "CIRCLE_001" := rfl

theorem id_circle2 : CIRCLE_002.id = "CIRCLE_002" := rfl

theorem id_triangle1 (w : Pattern) : (TRIANGLE_001 w).id = "TRIANGLE_001" := rfl

theorem id_spiral1 : SPIRAL_001.id = "SPIRAL_001" := rfl

theorem id_golden1 : GOLDEN_RATIO_001.id = "GOLDEN_RATIO_001" := rfl

theorem id_golden2 : GOLDEN_RATIO_002.id = "GOLDEN_RATIO_002" := rfl

theorem id_fractal1 : FRACTAL_001.id = "FRACTAL_001" := rfl

theorem gmem_circle (r : MetricsReport) :
    ∀ t ∈ generate_circle_tasks r, t = CIRCLE_001 ∨ t = CIRCLE_002 := by
  intro t ht
  unfold generate_circle_tasks at ht
  by_cases h1 : patternScore r .Circle < 7/10 <;>
    by_cases h2 : patternScore r .Circle < 8/10 <;>
    simp [h1, h2] at ht <;> tauto

theorem gmem_triangle (r : MetricsReport) :
    ∀ t ∈ generate_triangle_tasks r, t = TRIANGLE_001 (weakest_pattern r) := by
  intro t ht
  unfold generate_triangle_tasks at ht
  by_cases h : patternScore r .Triangle < 7/10 <;> simp [h] at ht
  exact ht

theorem gmem_spiral (r : MetricsReport) :
    ∀ t ∈ generate_spiral_tasks r, t = SPIRAL_001 := by
  intro t ht
  unfold generate_spiral_tasks at ht
  by_cases h : patternScore r .Spiral < 7/10 <;> simp [h] at ht
  exact ht

theorem gmem_golden (r : MetricsReport) :
    ∀ t ∈ generate_golden_ratio_tasks r,
      t = GOLDEN_RATIO_001 ∨ t = GOLDEN_RATIO_002 := by
  intro t ht
  unfold generate_golden_ratio_tasks at ht
  by_cases h : patternScore r .GoldenRatio < 1/2 <;> simp [h] at ht <;> tauto

theorem gmem_fractal (r : MetricsReport) :
    ∀ t ∈ generate_fractal_tasks r, t = FRACTAL_001 := by
  intro t ht
  unfold generate_fractal_tasks at ht
  by_cases h : patternScore r .Fractal < 7/10 <;> simp [h] at ht
  exact ht

theorem filter_foreign {l : List OptimizationTask} {s : String}
    (h : ∀ t ∈ l, t.id ≠ s) :
    l.filter (fun t => decide (t.id = s)) = [] := by
  rw [List.filter_eq_nil_iff]
  intro t ht
  simpa using h t ht

/-!
Strict-order corollaries on the ladder, and the phase trichotomy.
-/

theorem qlt_phi_phi2 : Qrt5.lt PHI PHI_SQUARED := not_qle_phi2_phi

theorem qlt_phi_phi3 : Qrt5.lt PHI PHI_CUBED := not_qle_phi3_phi

theorem qlt_phi2_phi3 : Qrt5.lt PHI_SQUARED PHI_CUBED := not_qle_phi3_phi2

theorem phase_trichotomy (x : Qrt5) :
    (Qrt5.le PHI_SQUARED x ∧ ¬(Qrt5.le PHI x ∧ Qrt5.lt x PHI_SQUARED) ∧
      ¬ Qrt5.lt x PHI) ∨
    (¬ Qrt5.le PHI_SQUARED x ∧ (Qrt5.le PHI x ∧ Qrt5.lt x PHI_SQUARED) ∧
      ¬ Qrt5.lt x PHI) ∨
    (¬ Qrt5.le PHI_SQUARED x ∧ ¬(Qrt5.le PHI x ∧ Qrt5.lt x PHI_SQUARED) ∧
      Qrt5.lt x PHI) := by
  by_cases h2 : Qrt5.le PHI_SQUARED x
  · exact Or.inl ⟨h2, fun hc => hc.2 h2,
      fun hlt => hlt (Qrt5.leTrans qle_phi_phi2 h2)⟩
  · by_cases h1 : Qrt5.le PHI x
    · exact Or.inr (Or.inl ⟨h2, ⟨h1, h2⟩, fun hlt => hlt h1⟩)
    · exact Or.inr (Or.inr ⟨h2, fun hc => h1 hc.1, h1⟩)

/-!
Aggregate impact over serialized phases.
-/

theorem phase_impact_spec (l : List OptimizationTask) :
    (l.map task_to_dict = [] → phase_expected_impact l = 0) ∧
    (l.map task_to_dict ≠ [] →
      phase_expected_impact l =
        ((l.map task_to_dict).map fun t => t.expected_impact).sum /
          ((l.map task_to_dict).length : ℚ)) := by
  constructor
  · intro h
    have hl : l = [] := by simpa using h
    simp [phase_expected_impact, hl]
  · intro h
    have hl : l ≠ [] := by
      intro e
      rw [e] at h
      simp at h
    simp only [phase_expected_impact, hl, if_false, List.map_map,
      List.length_map]
    rfl

/-- C3: for every input, the three phases partition the generated task
set — their concatenation is a permutation of the generated tasks, a
task sits in a phase exactly when it is generated and satisfies that
phase's threshold window, and the three threshold windows are mutually
exclusive and exhaustive for every weight. -/
theorem c3_phases_partition_tasks (r : MetricsReport) :
    (immediate_tasks r ++ progressive_tasks r ++ future_tasks r).Perm
      (generateTasks r) ∧
    (∀ t : OptimizationTask,
      (t ∈ immediate_tasks r ↔
        t ∈ generateTasks r ∧ Qrt5.le PHI_SQUARED t.priority) ∧
      (t ∈ progressive_tasks r ↔
        t ∈ generateTasks r ∧
          (Qrt5.le PHI t.priority ∧ Qrt5.lt t.priority PHI_SQUARED)) ∧
      (t ∈ future_tasks r ↔
        t ∈ generateTasks r ∧ Qrt5.lt t.priority PHI)) ∧
    (∀ x : Qrt5,
      (Qrt5.le PHI_SQUARED x ∧ ¬(Qrt5.le PHI x ∧ Qrt5.lt x PHI_SQUARED) ∧
        ¬ Qrt5.lt x PHI) ∨
      (¬ Qrt5.le PHI_SQUARED x ∧ (Qrt5.le PHI x ∧ Qrt5.lt x PHI_SQUARED) ∧
        ¬ Qrt5.lt x PHI) ∨
      (¬ Qrt5.le PHI_SQUARED x ∧ ¬(Qrt5.le PHI x ∧ Qrt5.lt x PHI_SQUARED) ∧
        Qrt5.lt x PHI)) := by
  have hs : List.Sorted taskGE (sortedTasks r) :=
    List.sorted_insertionSort taskGE (generateTasks r)
  have hmem : ∀ t : OptimizationTask, t ∈ sortedTasks r ↔ t ∈ generateTasks r :=
    fun t => (List.perm_insertionSort taskGE (generateTasks r)).mem_iff
  refine ⟨?_, ?_, phase_trichotomy⟩
  · have hsplit := three_phase_split (sortedTasks r) hs
    unfold immediate_tasks progressive_tasks future_tasks
    rw [hsplit]
    exact List.perm_insertionSort taskGE (generateTasks r)
  · intro t
    refine ⟨?_, ?_, ?_⟩ <;>
      simp only [immediate_tasks, progressive_tasks, future_tasks,
        List.mem_filter, decide_eq_true_eq, hmem t]

/-- C4: the Roadmap Builder's sort is a permutation of the generated
tasks, descending in priority, stable (for each weight the subsequence
of tasks of exactly that weight is unchanged), and the three phases are
contiguous slices whose concatenation is exactly the sorted sequence. -/
theorem c4_stable_descending_sort_contiguous_phases (r : MetricsReport) :
    List.Sorted taskGE (sortedTasks r) ∧
    (sortedTasks r).Perm (generateTasks r) ∧
    (∀ w : Qrt5,
      (sortedTasks r).filter (fun t => decide (t.priority = w)) =
        (generateTasks r).filter (fun t => decide (t.priority = w))) ∧
    immediate_tasks r ++ progressive_tasks r ++ future_tasks r =
      sortedTasks r := by
  have hs : List.Sorted taskGE (sortedTasks r) :=
    List.sorted_insertionSort taskGE (generateTasks r)
  exact ⟨hs, List.perm_insertionSort taskGE (generateTasks r),
    fun w => filter_priority_insertionSort w (generateTasks r),
    three_phase_split (sortedTasks r) hs⟩

/-- C5: the priority classifier is total on the weight carrier and
follows the ladder `w³ ↦ Critical`, `[w², w³) ↦ High`, `[w, w²) ↦
Medium`, `(-∞, w) ↦ Low`; every serialized task's tier name is the
classification of its priority weight. -/
theorem c5_classifier_ladder_and_serialization :
    (∀ w : Qrt5,
      (Qrt5.le PHI_CUBED w → get_priority_name w = "φ³ CRITICAL") ∧
      (Qrt5.le PHI_SQUARED w ∧ Qrt5.lt w PHI_CUBED →
        get_priority_name w = "φ² HIGH") ∧
      (Qrt5.le PHI w ∧ Qrt5.lt w PHI_SQUARED →
        get_priority_name w = "φ¹ MEDIUM") ∧
      (Qrt5.lt w PHI → get_priority_name w = "φ⁰ LOW")) ∧
    (∀ t : OptimizationTask,
      (task_to_dict t).priority_name = get_priority_name t.priority) := by
  refine ⟨fun w => ⟨fun h3 => ?_, fun h2 => ?_, fun h1 => ?_, fun h0 => ?_⟩,
    fun t => rfl⟩
  · unfold get_priority_name
    rw [if_pos h3]
  · unfold get_priority_name
    rw [if_neg h2.2, if_pos h2.1]
  · unfold get_priority_name
    rw [if_neg (fun hc => h1.2 (Qrt5.leTrans qle_phi2_phi3 hc)),
      if_neg h1.2, if_pos h1.1]
  · unfold get_priority_name
    rw [if_neg (fun hc => h0 (Qrt5.leTrans qle_phi_phi3 hc)),
      if_neg (fun hc => h0 (Qrt5.leTrans qle_phi_phi2 hc)), if_neg h0]

/-- C5 witness: the ladder applied to the three concrete rungs and to a
weight below `w`. -/
theorem c5_witness_concrete_rungs :
    get_priority_name PHI_CUBED = "φ³ CRITICAL" ∧
    get_priority_name PHI_SQUARED = "φ² HIGH" ∧
    get_priority_name PHI = "φ¹ MEDIUM" ∧
    get_priority_name ⟨1, 0⟩ = "φ⁰ LOW" := by
  refine ⟨(c5_classifier_ladder_and_serialization.1 PHI_CUBED).1 qle_phi3_phi3,
    (c5_classifier_ladder_and_serialization.1 PHI_SQUARED).2.1
      ⟨qle_phi2_phi2, qlt_phi2_phi3⟩,
    (c5_classifier_ladder_and_serialization.1 PHI).2.2.1
      ⟨qle_phi_phi, qlt_phi_phi2⟩,
    (c5_classifier_ladder_and_serialization.1 ⟨1, 0⟩).2.2.2 ?_⟩
  norm_num [Qrt5.lt, Qrt5.le, Qrt5.nonneg, PHI]

/-- Roadmap phase projections, by definition. -/
theorem roadmap_p1_tasks (now : ℚ) (r : MetricsReport) :
    (create_implementation_roadmap now r).phase_1_immediate.tasks =
      (immediate_tasks r).map task_to_dict := rfl

theorem roadmap_p1_impact (now : ℚ) (r : MetricsReport) :
    (create_implementation_roadmap now r).phase_1_immediate.expected_impact =
      phase_expected_impact (immediate_tasks r) := rfl

theorem roadmap_p2_tasks (now : ℚ) (r : MetricsReport) :
    (create_implementation_roadmap now r).phase_2_progressive.tasks =
      (progressive_tasks r).map task_to_dict := rfl

theorem roadmap_p2_impact (now : ℚ) (r : MetricsReport) :
    (create_implementation_roadmap now r).phase_2_progressive.expected_impact =
      phase_expected_impact (progressive_tasks r) := rfl

theorem roadmap_p3_tasks (now : ℚ) (r : MetricsReport) :
    (create_implementation_roadmap now r).phase_3_optimization.tasks =
      (future_tasks r).map task_to_dict := rfl

theorem roadmap_p3_impact (now : ℚ) (r : MetricsReport) :
    (create_implementation_roadmap now r).phase_3_optimization.expected_impact =
      phase_expected_impact (future_tasks r) := rfl

/-- C6: in every built roadmap each phase's aggregate impact is the
arithmetic mean of its tasks' expected impacts, and exactly `0` when
the phase is empty; the computation is total (no failure value exists). -/
theorem c6_phase_impact_mean_or_zero (now : ℚ) (r : MetricsReport) :
    ((create_implementation_roadmap now r).phase_1_immediate.tasks = [] →
      (create_implementation_roadmap now r).phase_1_immediate.expected_impact = 0) ∧
    ((create_implementation_roadmap now r).phase_1_immediate.tasks ≠ [] →
      (create_implementation_roadmap now r).phase_1_immediate.expected_impact =
        (((create_implementation_roadmap now r).phase_1_immediate.tasks.map
          fun t => t.expected_impact).sum) /
          (((create_implementation_roadmap now r).phase_1_immediate.tasks.length : ℚ))) ∧
    ((create_implementation_roadmap now r).phase_2_progressive.tasks = [] →
      (create_implementation_roadmap now r).phase_2_progressive.expected_impact = 0) ∧
    ((create_implementation_roadmap now r).phase_2_progressive.tasks ≠ [] →
      (create_implementation_roadmap now r).phase_2_progressive.expected_impact =
        (((create_implementation_roadmap now r).phase_2_progressive.tasks.map
          fun t => t.expected_impact).sum) /
          (((create_implementation_roadmap now r).phase_2_progressive.tasks.length : ℚ))) ∧
    ((create_implementation_roadmap now r).phase_3_optimization.tasks = [] →
      (create_implementation_roadmap now r).phase_3_optimization.expected_impact = 0) ∧
    ((create_implementation_roadmap now r).phase_3_optimization.tasks ≠ [] →
      (create_implementation_roadmap now r).phase_3_optimization.expected_impact =
        (((create_implementation_roadmap now r).phase_3_optimization.tasks.map
          fun t => t.expected_impact).sum) /
          (((create_implementation_roadmap now r).phase_3_optimization.tasks.length : ℚ))) := by
  simp only [roadmap_p1_tasks, roadmap_p1_impact, roadmap_p2_tasks,
    roadmap_p2_impact, roadmap_p3_tasks, roadmap_p3_impact]
  exact ⟨(phase_impact_spec (immediate_tasks r)).1,
    (phase_impact_spec (immediate_tasks r)).2,
    (phase_impact_spec (progressive_tasks r)).1,
    (phase_impact_spec (progressive_tasks r)).2,
    (phase_impact_spec (future_tasks r)).1,
    (phase_impact_spec (future_tasks r)).2⟩

/-- C8: the wall-clock value feeds only the `analysis_timestamp`
metadata and the export filename; every other roadmap field is a pure
function of the input report, so two runs on one report agree on the
roadmap's logical content. -/
theorem c8_runs_agree_modulo_timestamp (t₁ t₂ : ℚ) (r : MetricsReport) :
    (create_implementation_roadmap t₁ r).current_sacred_geometry_score =
      (create_implementation_roadmap t₂ r).current_sacred_geometry_score ∧
    (create_implementation_roadmap t₁ r).optimization_strategy =
      (create_implementation_roadmap t₂ r).optimization_strategy ∧
    (create_implementation_roadmap t₁ r).phase_1_immediate =
      (create_implementation_roadmap t₂ r).phase_1_immediate ∧
    (create_implementation_roadmap t₁ r).phase_2_progressive =
      (create_implementation_roadmap t₂ r).phase_2_progressive ∧
    (create_implementation_roadmap t₁ r).phase_3_optimization =
      (create_implementation_roadmap t₂ r).phase_3_optimization ∧
    (create_implementation_roadmap t₁ r).target_sacred_geometry_score =
      (create_implementation_roadmap t₂ r).target_sacred_geometry_score ∧
    (create_implementation_roadmap t₁ r).expected_timeline =
      (create_implementation_roadmap t₂ r).expected_timeline ∧
    (create_implementation_roadmap t₁ r).key_patterns_to_improve =
      (create_implementation_roadmap t₂ r).key_patterns_to_improve ∧
    (create_implementation_roadmap t₁ r).measurement_intervals =
      (create_implementation_roadmap t₂ r).measurement_intervals ∧
    (create_implementation_roadmap t₁ r).next_actions =
      (create_implementation_roadmap t₂ r).next_actions :=
  ⟨rfl, rfl, rfl, rfl, rfl, rfl, rfl, rfl, rfl, rfl⟩

/-- C10: the unconditional task `GOLDEN_RATIO_002` (weight `w`) is in
every generated task list, so the list is never empty, Phase 2 of every
roadmap holds at least one task, and the empty-list fallback branch of
the next-actions generator is never taken. -/
theorem c10_unconditional_task_nonempty_phase2 (now : ℚ) (r : MetricsReport) :
    GOLDEN_RATIO_002 ∈ generateTasks r ∧
    generateTasks r ≠ [] ∧
    GOLDEN_RATIO_002 ∈ progressive_tasks r ∧
    (create_implementation_roadmap now r).phase_2_progressive.tasks ≠ [] ∧
    (create_implementation_roadmap now r).next_actions ≠
      ["Run Sacred Geometry analysis to identify optimization opportunities"] := by
  have hmem : GOLDEN_RATIO_002 ∈ generateTasks r := by
    unfold generateTasks generate_golden_ratio_tasks
    simp
  have hmemS : GOLDEN_RATIO_002 ∈ sortedTasks r := by
    rw [sortedTasks, (List.perm_insertionSort taskGE (generateTasks r)).mem_iff]
    exact hmem
  have hprog : GOLDEN_RATIO_002 ∈ progressive_tasks r := by
    rw [progressive_tasks, List.mem_filter]
    refine ⟨hmemS, ?_⟩
    simp only [decide_eq_true_eq, prio_golden2]
    exact ⟨qle_phi_phi, qlt_phi_phi2⟩
  have hsortne : sortedTasks r ≠ [] := List.ne_nil_of_mem hmemS
  refine ⟨hmem, List.ne_nil_of_mem hmem, hprog, ?_, ?_⟩
  · show (progressive_tasks r).map task_to_dict ≠ []
    intro e
    exact List.ne_nil_of_mem hprog (List.map_eq_nil_iff.mp e)
  · show generate_next_actions (sortedTasks r) (weakest_pattern r) ≠ _
    rcases e : sortedTasks r with _ | ⟨a, l⟩
    · exact absurd e hsortne
    · simp [generate_next_actions]

/-- Raw dictionary entry for a pattern's score key, before the
`.get(key, 0)` defaulting; `none` is an absent key. -/
def patternKey (r : MetricsReport) : Pattern → Option ℚ
  | .Circle => r.circle_completeness
  | .Triangle => r.triangle_stability
  | .Spiral => r.spiral_growth
  | .GoldenRatio => r.golden_ratio_optimization
  | .Fractal => r.fractal_consistency

/-- C7 counterexample: on the report whose scores document has no keys
at all — the spec's "zero categories" input — the analyzer does not
fail: it is a total function and returns Circle as both weakest and
strongest (all five fixed categories default to score 0, first
occurrence wins).  No `EmptyReportError` exists in the code. -/
theorem c7_counterexample_no_failure_on_empty :
    weakest_pattern reportNoKeys = .Circle ∧
    strongest_pattern reportNoKeys = .Circle ∧
    (∀ p, patternKey reportNoKeys p = none) := by
  refine ⟨?_, ?_, ?_⟩
  · norm_num [weakest_pattern, argminFirst, patternScore, reportNoKeys]
  · norm_num [strongest_pattern, argmaxFirst, patternScore, reportNoKeys]
  · intro p
    cases p <;> rfl

/-- C7 amended: the analyzer is total — it never fails, because the
five-category score dictionary is always populated (absent keys default
to 0) — and returns the first minimum-score category as weakest and the
first maximum-score category as strongest, ties broken by declaration
order. -/
theorem c7_amended_analyzer_total_first_wins (r : MetricsReport) :
    (∀ p, patternScore r (weakest_pattern r) ≤ patternScore r p) ∧
    (∀ p, patternIdx p < patternIdx (weakest_pattern r) →
      patternScore r (weakest_pattern r) < patternScore r p) ∧
    (∀ p, patternScore r p ≤ patternScore r (strongest_pattern r)) ∧
    (∀ p, patternIdx p < patternIdx (strongest_pattern r) →
      patternScore r p < patternScore r (strongest_pattern r)) :=
  ⟨(weakest_spec r).1, (weakest_spec r).2,
   (strongest_spec r).1, (strongest_spec r).2⟩

/-- C9: a score key absent from `average_scores` is read as `0.0`
rather than skipped or raising; score 0 fails every generation
threshold, and a missing category can become the weakest (witnessed by
the report whose only missing key is Spiral). -/
theorem c9_missing_key_scores_zero (r : MetricsReport) :
    (∀ p, patternKey r p = none → patternScore r p = 0) ∧
    (∀ p, patternKey r p = none →
      patternScore r p < 1/2 ∧ patternScore r p < 7/10 ∧
        patternScore r p < 8/10) ∧
    patternKey reportSpiralMissing .Spiral = none ∧
    weakest_pattern reportSpiralMissing = .Spiral := by
  have h0 : ∀ p, patternKey r p = none → patternScore r p = 0 := by
    intro p hp
    cases p <;> simp_all [patternKey, patternScore]
  refine ⟨h0, ?_, rfl, ?_⟩
  · intro p hp
    rw [h0 p hp]
    norm_num
  · norm_num [weakest_pattern, argminFirst, patternScore, reportSpiralMissing]

/-!
Filters of each generator's output by a task identifier it never emits.
-/

theorem filterid_circle (r : MetricsReport) {s : String}
    (h1 : s ≠ "CIRCLE_001") (h2 : s ≠ "CIRCLE_002") :
    (generate_circle_tasks r).filter (fun t => decide (t.id = s)) = [] :=
  filter_foreign fun t ht => by
    rcases gmem_circle r t ht with rfl | rfl
    · rw [id_circle1]; exact h1.symm
    · rw [id_circle2]; exact h2.symm

theorem filterid_triangle (r : MetricsReport) {s : String}
    (h1 : s ≠ "TRIANGLE_001") :
    (generate_triangle_tasks r).filter (fun t => decide (t.id = s)) = [] :=
  filter_foreign fun t ht => by
    rw [gmem_triangle r t ht, id_triangle1]
    exact h1.symm

theorem filterid_spiral (r : MetricsReport) {s : String}
    (h1 : s ≠ "SPIRAL_001") :
    (generate_spiral_tasks r).filter (fun t => decide (t.id = s)) = [] :=
  filter_foreign fun t ht => by
    rw [gmem_spiral r t ht, id_spiral1]
    exact h1.symm

theorem filterid_golden (r : MetricsReport) {s : String}
    (h1 : s ≠ "GOLDEN_RATIO_001") (h2 : s ≠ "GOLDEN_RATIO_002") :
    (generate_golden_ratio_tasks r).filter (fun t => decide (t.id = s)) = [] :=
  filter_foreign fun t ht => by
    rcases gmem_golden r t ht with rfl | rfl
    · rw [id_golden1]; exact h1.symm
    · rw [id_golden2]; exact h2.symm

theorem filterid_fractal (r : MetricsReport) {s : String}
    (h1 : s ≠ "FRACTAL_001") :
    (generate_fractal_tasks r).filter (fun t => decide (t.id = s)) = [] :=
  filter_foreign fun t ht => by
    rw [gmem_fractal r t ht, id_fractal1]
    exact h1.symm

/-- C1 counterexample: on the report where Spiral is the unique weakest
category with score `0.3 < 0.7`, the Spiral primary task is generated
with weight `w²` (`PHI_SQUARED`), not the `w³` the claim requires for
the weakest category. -/
theorem c1_counterexample_spiral_weakest_gets_w2 :
    weakest_pattern reportSpiralWeak = .Spiral ∧
    patternScore reportSpiralWeak .Spiral < 7/10 ∧
    ((generateTasks reportSpiralWeak).filter fun t =>
      decide (t.id = "SPIRAL_001")).map (fun t => t.priority) = [PHI_SQUARED] ∧
    PHI_SQUARED ≠ PHI_CUBED := by
  refine ⟨?_, ?_, ?_, ?_⟩
  · norm_num [weakest_pattern, argminFirst, patternScore, reportSpiralWeak]
  · norm_num [patternScore, reportSpiralWeak]
  · have hg : generateTasks reportSpiralWeak =
        [CIRCLE_002, SPIRAL_001, GOLDEN_RATIO_002] := by
      norm_num [generateTasks, generate_circle_tasks, generate_triangle_tasks,
        generate_spiral_tasks, generate_golden_ratio_tasks,
        generate_fractal_tasks, patternScore, reportSpiralWeak]
    rw [hg]
    simp [id_circle2, id_spiral1, id_golden2, prio_spiral1]
  · norm_num [PHI_SQUARED, PHI_CUBED, Qrt5.mk.injEq]

/-- C1 amended: the primary-task rules as implemented are
category-specific.  Circle fires below `0.7` always at `w³`; Triangle
fires below `0.7` at `w³` exactly when Triangle is the weakest category
and at `w²` otherwise; Spiral fires below `0.7` always at `w²`; Golden
Ratio fires below `0.5` (not `0.7`) always at `w³`; Fractal fires below
`0.7` at `w`.  Above its threshold a category generates no primary
task. -/
theorem c1_amended_primary_rules_per_category (r : MetricsReport) :
    ((generateTasks r).filter fun t => decide (t.id = "CIRCLE_001")) =
      (if patternScore r .Circle < 7/10 then [CIRCLE_001] else []) ∧
    ((generateTasks r).filter fun t => decide (t.id = "TRIANGLE_001")) =
      (if patternScore r .Triangle < 7/10 then [TRIANGLE_001 (weakest_pattern r)]
        else []) ∧
    ((generateTasks r).filter fun t => decide (t.id = "SPIRAL_001")) =
      (if patternScore r .Spiral < 7/10 then [SPIRAL_001] else []) ∧
    ((generateTasks r).filter fun t => decide (t.id = "GOLDEN_RATIO_001")) =
      (if patternScore r .GoldenRatio < 1/2 then [GOLDEN_RATIO_001] else []) ∧
    ((generateTasks r).filter fun t => decide (t.id = "FRACTAL_001")) =
      (if patternScore r .Fractal < 7/10 then [FRACTAL_001] else []) ∧
    CIRCLE_001.priority = PHI_CUBED ∧
    (∀ w, (TRIANGLE_001 w).priority =
      if w = .Triangle then PHI_CUBED else PHI_SQUARED) ∧
    SPIRAL_001.priority = PHI_SQUARED ∧
    GOLDEN_RATIO_001.priority = PHI_CUBED ∧
    FRACTAL_001.priority = PHI := by
  have fc1 : (generate_circle_tasks r).filter
      (fun t => decide (t.id = "CIRCLE_001")) =
      (if patternScore r .Circle < 7/10 then [CIRCLE_001] else []) := by
    unfold generate_circle_tasks
    by_cases h1 : patternScore r .Circle < 7/10 <;>
      by_cases h2 : patternScore r .Circle < 8/10
    · simp [h1, h2, id_circle1, id_circle2]
    · exact absurd (by linarith : patternScore r .Circle < 8/10) h2
    · simp [h1, h2, id_circle1, id_circle2]
    · simp [h1, h2]
  have ft1 : (generate_triangle_tasks r).filter
      (fun t => decide (t.id = "TRIANGLE_001")) =
      (if patternScore r .Triangle < 7/10 then [TRIANGLE_001 (weakest_pattern r)]
        else []) := by
    unfold generate_triangle_tasks
    by_cases h : patternScore r .Triangle < 7/10 <;> simp [h, id_triangle1]
  have fs1 : (generate_spiral_tasks r).filter
      (fun t => decide (t.id = "SPIRAL_001")) =
      (if patternScore r .Spiral < 7/10 then [SPIRAL_001] else []) := by
    unfold generate_spiral_tasks
    by_cases h : patternScore r .Spiral < 7/10 <;> simp [h, id_spiral1]
  have fg1 : (generate_golden_ratio_tasks r).filter
      (fun t => decide (t.id = "GOLDEN_RATIO_001")) =
      (if patternScore r .GoldenRatio < 1/2 then [GOLDEN_RATIO_001] else []) := by
    unfold generate_golden_ratio_tasks
    by_cases h : patternScore r .GoldenRatio < 1/2 <;>
      simp [h, id_golden1, id_golden2]
  have ff1 : (generate_fractal_tasks r).filter
      (fun t => decide (t.id = "FRACTAL_001")) =
      (if patternScore r .Fractal < 7/10 then [FRACTAL_001] else []) := by
    unfold generate_fractal_tasks
    by_cases h : patternScore r .Fractal < 7/10 <;> simp [h, id_fractal1]
  refine ⟨?_, ?_, ?_, ?_, ?_, rfl, prio_triangle1, rfl, rfl, rfl⟩
  · unfold generateTasks
    rw [List.filter_append, List.filter_append, List.filter_append,
      List.filter_append, filterid_triangle r (by decide),
      filterid_spiral r (by decide), filterid_golden r (by decide) (by decide),
      filterid_fractal r (by decide), fc1]
    simp
  · unfold generateTasks
    rw [List.filter_append, List.filter_append, List.filter_append,
      List.filter_append, filterid_circle r (by decide) (by decide),
      filterid_spiral r (by decide), filterid_golden r (by decide) (by decide),
      filterid_fractal r (by decide), ft1]
    simp
  · unfold generateTasks
    rw [List.filter_append, List.filter_append, List.filter_append,
      List.filter_append, filterid_circle r (by decide) (by decide),
      filterid_triangle r (by decide),
      filterid_golden r (by decide) (by decide),
      filterid_fractal r (by decide), fs1]
    simp
  · unfold generateTasks
    rw [List.filter_append, List.filter_append, List.filter_append,
      List.filter_append, filterid_circle r (by decide) (by decide),
      filterid_triangle r (by decide), filterid_spiral r (by decide),
      filterid_fractal r (by decide), fg1]
    simp
  · unfold generateTasks
    rw [List.filter_append, List.filter_append, List.filter_append,
      List.filter_append, filterid_circle r (by decide) (by decide),
      filterid_triangle r (by decide), filterid_spiral r (by decide),
      filterid_golden r (by decide) (by decide), ff1]
    simp

/-- Concrete run: with all scores `0.9` only the unconditional task is
generated. -/
theorem eval09_gen : generateTasks reportAll09 = [GOLDEN_RATIO_002] := by
  norm_num [generateTasks, generate_circle_tasks, generate_triangle_tasks,
    generate_spiral_tasks, generate_golden_ratio_tasks,
    generate_fractal_tasks, patternScore, reportAll09]

theorem eval09_sorted : sortedTasks reportAll09 = [GOLDEN_RATIO_002] := by
  rw [sortedTasks, eval09_gen]
  rfl

theorem eval09_pro : progressive_tasks reportAll09 = [GOLDEN_RATIO_002] := by
  rw [progressive_tasks, eval09_sorted]
  simp [prio_golden2, qle_phi_phi, qlt_phi_phi2]

/-- C2 counterexample: on the report where every category scores `0.9
≥ 0.8`, the generator still emits the unconditional `GOLDEN_RATIO_002`
task, Phase 2 of the roadmap is not empty, and `next_actions` is not
the single fallback message — contradicting "zero tasks generated, all
three phases empty, single fallback message". -/
theorem c2_counterexample_unconditional_task_on_high_scores :
    (∀ p, 8/10 ≤ patternScore reportAll09 p) ∧
    generateTasks reportAll09 = [GOLDEN_RATIO_002] ∧
    generateTasks reportAll09 ≠ [] ∧
    (create_implementation_roadmap 0 reportAll09).phase_2_progressive.tasks ≠ [] ∧
    (create_implementation_roadmap 0 reportAll09).next_actions ≠
      ["Run Sacred Geometry analysis to identify optimization opportunities"] := by
  have hscore : ∀ p, 8/10 ≤ patternScore reportAll09 p := by
    intro p
    cases p <;> norm_num [patternScore, reportAll09]
  refine ⟨hscore, eval09_gen, ?_, ?_, ?_⟩
  · rw [eval09_gen]
    simp
  · rw [roadmap_p2_tasks, eval09_pro]
    simp
  · show generate_next_actions (sortedTasks reportAll09) _ ≠ _
    rw [eval09_sorted]
    simp [generate_next_actions]

/-- C2 amended: when every category scores at least `0.8`, exactly one
task is generated — the unconditional `GOLDEN_RATIO_002` at weight `w`
— Phases 1 and 3 are empty with aggregate impact `0`, Phase 2 holds
that single task with aggregate impact `0.8`, and `next_actions` is the
five-item list headed by that task's title (the fallback branch is not
taken). -/
theorem c2_amended_high_scores_single_unconditional_task (now : ℚ)
    (r : MetricsReport) (h : ∀ p, 8/10 ≤ patternScore r p) :
    generateTasks r = [GOLDEN_RATIO_002] ∧
    immediate_tasks r = [] ∧
    progressive_tasks r = [GOLDEN_RATIO_002] ∧
    future_tasks r = [] ∧
    (create_implementation_roadmap now r).phase_1_immediate.tasks = [] ∧
    (create_implementation_roadmap now r).phase_1_immediate.expected_impact = 0 ∧
    (create_implementation_roadmap now r).phase_2_progressive.tasks =
      [task_to_dict GOLDEN_RATIO_002] ∧
    (create_implementation_roadmap now r).phase_2_progressive.expected_impact =
      8/10 ∧
    (create_implementation_roadmap now r).phase_3_optimization.tasks = [] ∧
    (create_implementation_roadmap now r).phase_3_optimization.expected_impact = 0 ∧
    (create_implementation_roadmap now r).next_actions =
      ["🎯 START: Sacred Geometry Performance Optimization",
       "📐 Focus on " ++ patternName (weakest_pattern r) ++ " pattern improvement",
       "🔄 Run Sacred Geometry analysis weekly to track progress",
       "📊 Measure improvements using φ-based metrics",
       "🌟 Celebrate Sacred Geometry alignment milestones"] := by
  have hc1 : ¬ patternScore r .Circle < 7/10 := by
    intro hlt; linarith [h .Circle]
  have hc2 : ¬ patternScore r .Circle < 8/10 := not_lt.mpr (h .Circle)
  have ht1 : ¬ patternScore r .Triangle < 7/10 := by
    intro hlt; linarith [h .Triangle]
  have hs1 : ¬ patternScore r .Spiral < 7/10 := by
    intro hlt; linarith [h .Spiral]
  have hg1 : ¬ patternScore r .GoldenRatio < 1/2 := by
    intro hlt; linarith [h .GoldenRatio]
  have hf1 : ¬ patternScore r .Fractal < 7/10 := by
    intro hlt; linarith [h .Fractal]
  have hgen : generateTasks r = [GOLDEN_RATIO_002] := by
    unfold generateTasks generate_circle_tasks generate_triangle_tasks
      generate_spiral_tasks generate_golden_ratio_tasks generate_fractal_tasks
    rw [if_neg hc1, if_neg hc2, if_neg ht1, if_neg hs1, if_neg hg1, if_neg hf1]
    rfl
  have hsorted : sortedTasks r = [GOLDEN_RATIO_002] := by
    rw [sortedTasks, hgen]
    rfl
  have himm : immediate_tasks r = [] := by
    rw [immediate_tasks, hsorted]
    simp [prio_golden2, not_qle_phi2_phi]
  have hpro : progressive_tasks r = [GOLDEN_RATIO_002] := by
    rw [progressive_tasks, hsorted]
    simp [prio_golden2, qle_phi_phi, qlt_phi_phi2]
  have hfut : future_tasks r = [] := by
    rw [future_tasks, hsorted]
    simp [prio_golden2, Qrt5.lt, qle_phi_phi]
  refine ⟨hgen, himm, hpro, hfut, ?_, ?_, ?_, ?_, ?_, ?_, ?_⟩
  · rw [roadmap_p1_tasks, himm]
    rfl
  · rw [roadmap_p1_impact, himm]
    rfl
  · rw [roadmap_p2_tasks, hpro]
    rfl
  · rw [roadmap_p2_impact, hpro]
    norm_num [phase_expected_impact, GOLDEN_RATIO_002]
  · rw [roadmap_p3_tasks, hfut]
    rfl
  · rw [roadmap_p3_impact, hfut]
    rfl
  · show generate_next_actions (sortedTasks r) (weakest_pattern r) = _
    rw [hsorted]
    rfl

/-- C2 witness: the amended claim applied to the concrete report with
all scores `0.9`, its hypothesis discharged by computation. -/
theorem c2_witness_all_scores_09 :
    progressive_tasks reportAll09 = [GOLDEN_RATIO_002] ∧
    (create_implementation_roadmap 0 reportAll09).phase_2_progressive.expected_impact =
      8/10 := by
  have hscore : ∀ p, 8/10 ≤ patternScore reportAll09 p := by
    intro p
    cases p <;> norm_num [patternScore, reportAll09]
  exact ⟨(c2_amended_high_scores_single_unconditional_task 0 reportAll09 hscore).2.2.1,
    (c2_amended_high_scores_single_unconditional_task 0 reportAll09 hscore).2.2.2.2.2.2.2.1⟩

/-- C3 witness: in the all-scores-0.9 run, the membership criterion of
Phase 2 applied to the unconditional task. -/
theorem c3_witness_gr2_in_phase2 :
    GOLDEN_RATIO_002 ∈ progressive_tasks reportAll09 := by
  refine ((c3_phases_partition_tasks reportAll09).2.1 GOLDEN_RATIO_002).2.1.mpr
    ⟨?_, ?_⟩
  · rw [eval09_gen]
    simp
  · rw [prio_golden2]
    exact ⟨qle_phi_phi, qlt_phi_phi2⟩

/-- C6 witness: in the all-scores-0.9 run, Phase 2 is nonempty and its
aggregate equals the mean formula. -/
theorem c6_witness_phase2_mean :
    (create_implementation_roadmap 0 reportAll09).phase_2_progressive.tasks ≠ [] ∧
    (create_implementation_roadmap 0 reportAll09).phase_2_progressive.expected_impact =
      (((create_implementation_roadmap 0 reportAll09).phase_2_progressive.tasks.map
        fun t => t.expected_impact).sum) /
        (((create_implementation_roadmap 0 reportAll09).phase_2_progressive.tasks.length : ℚ)) := by
  have hne : (create_implementation_roadmap 0 reportAll09).phase_2_progressive.tasks ≠ [] := by
    rw [roadmap_p2_tasks, eval09_pro]
    simp
  exact ⟨hne, (c6_phase_impact_mean_or_zero 0 reportAll09).2.2.2.1 hne⟩

/-- C7 witness: on the report where Triangle is the unique weakest
category, the earlier-declared Circle scores strictly above the
returned minimum. -/
theorem c7_witness_triangle_weakest :
    patternScore reportTriangleWeak (weakest_pattern reportTriangleWeak) <
      patternScore reportTriangleWeak .Circle := by
  refine (c7_amended_analyzer_total_first_wins reportTriangleWeak).2.1 .Circle ?_
  norm_num [weakest_pattern, argminFirst, patternScore, reportTriangleWeak,
    patternIdx]

/-- C9 witness: the missing Spiral key of the concrete report is read
as score `0`. -/
theorem c9_witness_missing_spiral_scores_zero :
    patternScore reportSpiralMissing .Spiral = 0 :=
  (c9_missing_key_scores_zero reportSpiralMissing).1 .Spiral rfl

/-- C10 witness: the invariant instantiated on the all-scores-0.9 run. -/
theorem c10_witness_gr2_always_generated :
    GOLDEN_RATIO_002 ∈ generateTasks reportAll09 ∧
    (create_implementation_roadmap 0 reportAll09).phase_2_progressive.tasks ≠ [] :=
  ⟨(c10_unconditional_task_nonempty_phase2 0 reportAll09).1,
   (c10_unconditional_task_nonempty_phase2 0 reportAll09).2.2.2.1⟩
